import Mathlib

/-!
# Verification of the Nawatech FAQ chatbot core

Shallow embedding of the retrieval-augmented QA pipeline:
embedding provider (`CustomLocalEmbeddings`), vector store
initialization (`VectorStore.initialize`), answer generation
(`QAChain.generate_response`), heuristic response evaluation
(`ResponseEvaluator._evaluate_heuristic`), evaluation-text parsing
(`ResponseEvaluator._parse_evaluation`), FAQ ingestion
(`load_faq_data`) and chat-history bounding
(`ChatInterface.add_message`).

Numeric values are modelled as rationals (`ℚ`); Python exceptions are
modelled as `Except` values carrying the exception message (and, where
the code stores it, a traceback string).  Network calls are modelled as
oracle functions supplied as parameters, so that theorems quantify over
every possible provider behaviour.
-/

namespace Chatbot

/-! ## Embedding provider: `CustomLocalEmbeddings` (custom_embeddings.py)

An embedding request for one batch is modelled by an oracle
`List String → Except String (List (List ℚ))`: it either returns the
list of embedding vectors extracted from `response["data"]`, or fails
(any exception raised by `_make_embedding_request` or by the
extraction of `item["embedding"]`). -/

/-- The configuration of a `CustomLocalEmbeddings` instance, as far as
`embed_documents` consults it: the optional `dimensions` argument of the
constructor (`None` unless explicitly passed). -/
structure EmbConfig where
  dimensions : Option Nat
deriving DecidableEq

/-- Python `self.dimensions or 384`: the per-item length of the zero-vector
substituted for a failed batch (custom_embeddings.py line 137). -/
def EmbConfig.fallbackDim (cfg : EmbConfig) : Nat :=
  cfg.dimensions.getD 384

/-- The zero vector `[0.0] * (self.dimensions or 384)`. -/
def zeroVec (cfg : EmbConfig) : List ℚ :=
  List.replicate cfg.fallbackDim 0

/-- The batch loop of `embed_documents` (custom_embeddings.py lines
119–139): texts are processed in chunks `texts[i:i+3]`; for each chunk
one request is issued; on success the embeddings from the response are
appended, on failure `[[0.0] * (dimensions or 384)] * len(batch)` is
appended.  Returns the accumulated embeddings together with the number
of requests issued. -/
def embedBatches (cfg : EmbConfig)
    (oracle : List String → Except String (List (List ℚ))) :
    List String → List (List ℚ) × Nat
  | [] => ([], 0)
  | [a] =>
    match oracle [a] with
    | .ok data => (data, 1)
    | .error _ => (List.replicate 1 (zeroVec cfg), 1)
  | [a, b] =>
    match oracle [a, b] with
    | .ok data => (data, 1)
    | .error _ => (List.replicate 2 (zeroVec cfg), 1)
  | a :: b :: c :: rest =>
    let tail := embedBatches cfg oracle rest
    match oracle [a, b, c] with
    | .ok data => (data ++ tail.1, tail.2 + 1)
    | .error _ => (List.replicate 3 (zeroVec cfg) ++ tail.1, tail.2 + 1)

/-- Model of `embed_documents` (custom_embeddings.py lines 106–139): empty input
returns `[]` immediately (no request); otherwise the batch loop runs.
The second component counts the embedding requests issued. -/
def embed_documents (cfg : EmbConfig)
    (oracle : List String → Except String (List (List ℚ)))
    (texts : List String) : List (List ℚ) × Nat :=
  if texts = [] then ([], 0) else embedBatches cfg oracle texts

/-- Model of `embed_query` (custom_embeddings.py lines 141–155): one request for
`[text]`, then `response["data"][0]["embedding"]`; indexing an empty
`data` raises, and a request failure propagates as `ValueError`. -/
def embed_query (oracle : List String → Except String (List (List ℚ)))
    (text : String) : Except String (List ℚ) :=
  match oracle [text] with
  | .error e => .error e
  | .ok [] => .error "IndexError: list index out of range"
  | .ok (v :: _) => .ok v

/-! ## Vector store: `VectorStore.initialize` (vector_store.py lines 51–80)

The mutable state of the store is `vectorstore`, either `none`
(uninitialized, no `InMemoryVectorStore` created) or `some docs` (an
in-memory store holding `docs`).  `initialize` first issues the probe
`embed_query("Test embedding")`; if that raises it returns `False`
without touching the state.  Otherwise it replaces `vectorstore` with a
fresh empty store, then runs `add_texts(documents)`; a failure there is
caught by the outer handler and returns `False`. -/

/-- The `VectorStore` state: `none` while uninitialized. -/
structure VSState where
  vectorstore : Option (List String)
deriving DecidableEq

/-- Model of `VectorStore.initialize`: the probe, store creation, and bulk
`add_texts`, returning the success flag together with the state after
the call.  `addTexts` models `InMemoryVectorStore.add_texts` as an
all-or-nothing oracle. -/
def VectorStore.initialize
    (oracle : List String → Except String (List (List ℚ)))
    (addTexts : List String → Except String Unit)
    (st : VSState) (documents : List String) : Bool × VSState :=
  match embed_query oracle "Test embedding" with
  | .error _ => (false, st)
  | .ok _ =>
    match addTexts documents with
    | .error _ => (false, ⟨some []⟩)
    | .ok _ => (true, ⟨some documents⟩)

/-! ## Answer generation: `QAChain.generate_response` (qa_agent.py)

A Python exception is a message plus the traceback the handler logs and
stores. The three network-facing stages of the pipeline are oracles:
`retrieve` (`retriever.get_relevant_documents`, also invoked inside
`chain.invoke` by `create_retrieval_chain`), `llmAnswer` (the document
chain producing the response dict), and `evaluate`
(`evaluator.evaluate_response`). -/

/-- A raised Python exception: `str(e)` and `traceback.format_exc()`. -/
structure PyExn where
  msg : String
  tb : String
deriving DecidableEq

/-- An evaluation dict `{scores, reasons, method}`; both dicts are
association lists in insertion order. -/
structure EvalResult where
  scores : List (String × ℚ)
  reasons : List (String × List String)
  method : String
deriving DecidableEq

/-- The dict returned by `chain.invoke`: an optional `"answer"` key and
the remaining key/value pairs. -/
structure ChainResponse where
  answer : Option String
  extra : List (String × String)

/-- The dict returned by `generate_response`, with its possible keys. -/
structure QAResult where
  answer : String
  error : Option String
  traceback : Option String
  evaluation : Option EvalResult
  extra : List (String × String)
deriving DecidableEq

/-- The stage oracles of one `QAChain`. -/
structure QAEnv where
  retrieve : String → Except PyExn (List String)
  llmAnswer : String → List String → Except PyExn ChainResponse
  evaluate : String → String → String → Except PyExn EvalResult

/-- Model of `_debug_retrieve_documents` (qa_agent.py lines 104–135): a
retrieval exception is caught and an empty list returned. -/
def debugRetrieveDocuments (env : QAEnv) (query : String) : List String :=
  match env.retrieve query with
  | .ok docs => docs
  | .error _ => []

/-- Model of `_format_docs_for_evaluation` (qa_agent.py lines 165–183). -/
def formatDocsForEvaluation (docs : List String) : String :=
  if docs = [] then ""
  else
    String.intercalate "\n"
      ((docs.enum.map fun p =>
        "Document " ++ toString (p.1 + 1) ++ ":\n" ++ p.2 ++ "\n"))

/-- Model of `chain.invoke` (`create_retrieval_chain`): retrieve, then run the
document chain; an exception in either step propagates. -/
def chainInvoke (env : QAEnv) (query : String) : Except PyExn ChainResponse := do
  let docs ← env.retrieve query
  env.llmAnswer query docs

/-- The `try` body of `generate_response` (qa_agent.py lines 200–242):
debug retrieval (errors swallowed), context formatting, chain
invocation, answer extraction with the `"No answer generated"` default,
evaluation, and result assembly copying every response key other than
`"answer"` that is not already a result key. -/
def qaBody (env : QAEnv) (query : String) : Except PyExn QAResult := do
  let docs := debugRetrieveDocuments env query
  let ctx := formatDocsForEvaluation docs
  let response ← chainInvoke env query
  let answer := response.answer.getD "No answer generated"
  let evaluation ← env.evaluate query answer ctx
  .ok { answer := answer
        error := none
        traceback := none
        evaluation := some evaluation
        extra := response.extra.filter fun kv =>
          kv.1 ≠ "answer" && kv.1 ≠ "evaluation" }

/-- The result `{"answer": "Invalid query input."}`. -/
def invalidQueryResult : QAResult :=
  { answer := "Invalid query input.", error := none, traceback := none
    evaluation := none, extra := [] }

/-- The error result of qa_agent.py lines 250–259. -/
def qaErrorResult (e : PyExn) : QAResult :=
  { answer := "I apologize, but I encountered an error: " ++ e.msg
    error := some e.msg
    traceback := some e.tb
    evaluation := some { scores := [("overall", 0)]
                         reasons := [("error", [e.msg])]
                         method := "error" }
    extra := [] }

/-- Model of `generate_response` (qa_agent.py lines 185–259).  The query is an
`Option String` so that `None` is representable; `not query or not
isinstance(query, str)` rejects `None` and `""`.  The whole body is
wrapped in `try/except Exception`, so the function is total: it returns
a `QAResult`, never an exception. -/
def generate_response (env : QAEnv) (query : Option String) : QAResult :=
  match query with
  | none => invalidQueryResult
  | some q =>
    if q = "" then invalidQueryResult
    else
      match qaBody env q with
      | .ok r => r
      | .error e => qaErrorResult e

/-! ## Heuristic evaluation: `ResponseEvaluator._evaluate_heuristic`
(evaluator_agent.py lines 70–160)

String primitives are modelled on `List Char`.  Python `str.split()`
with no argument splits on whitespace runs discarding empties; split
with an explicit separator keeps empty pieces; the regex class of word
characters is modelled by its ASCII core (alphanumeric or underscore). -/

/-- Python `str.split()` on a character list: maximal non-whitespace
runs. -/
def splitWs : List Char → List (List Char)
  | [] => []
  | c :: cs =>
    if c.isWhitespace then splitWs cs
    else
      match splitWs cs with
      | [] => [[c]]
      | w :: ws =>
        match cs with
        | [] => [[c]]
        | c' :: _ => if c'.isWhitespace then [c] :: w :: ws else (c :: w) :: ws

/-- Python `str.split(sep)` for a single separator character: pieces
between separators, empty pieces kept. -/
def splitOnChar (sep : Char) : List Char → List (List Char)
  | [] => [[]]
  | c :: cs =>
    if c = sep then [] :: splitOnChar sep cs
    else
      match splitOnChar sep cs with
      | [] => [[c]]
      | p :: ps => (c :: p) :: ps

/-- The regex word-character class, ASCII core: letters, digits, underscore. -/
def isWordChar (c : Char) : Bool :=
  c.isAlphanum || c = '_'

/-- The stopword set of `_extract_keywords` (evaluator_agent.py lines
276–281). -/
def stopwords : List String :=
  ["yang", "dan", "di", "ke", "dari", "dengan", "untuk", "pada", "adalah",
   "ini", "itu",
   "the", "a", "an", "and", "or", "but", "is", "are", "was", "were", "be",
   "been", "being",
   "in", "on", "at", "to", "for", "with", "by", "about", "against",
   "between", "into", "through",
   "this", "that", "these", "those", "of", "from"]

/-- Model of `_extract_keywords` (evaluator_agent.py lines 262–285): lowercase,
strip every character that is neither a word character nor whitespace,
split on whitespace, drop stopwords and words of length ≤ 2. -/
def extract_keywords (text : String) : List String :=
  let cleaned := (text.toList.map Char.toLower).filter fun c =>
    isWordChar c || c.isWhitespace
  ((splitWs cleaned).map fun w => String.mk w).filter fun w =>
    w ∉ stopwords && w.length > 2

/-- The keyword set of a text: `set(self._extract_keywords(text))`. -/
def keywordSet (text : String) : Finset String :=
  (extract_keywords text).toFinset

/-- The Python word count: len of response.split with no argument. -/
def wordCount (response : String) : Nat :=
  (splitWs response.toList).length

/-- The Python sentence count: len of response split on the period
character. -/
def sentenceCount (response : String) : Nat :=
  (splitOnChar '.' response.toList).length

/-- The scores dict of the heuristic evaluation. -/
structure HeuristicScores where
  relevance : ℚ
  completeness : ℚ
  clarity : ℚ
  accuracy : ℚ
  overall : ℚ
deriving DecidableEq

/-- Python `round(x, ndigits=2)` on an exact rational: round half to
even at the second decimal. -/
def pyRound2 (x : ℚ) : ℚ :=
  let y := x * 100
  let f : ℤ := ⌊y⌋
  let r : ℚ := y - f
  let n : ℤ :=
    if r < 1/2 then f
    else if 1/2 < r then f + 1
    else if f % 2 = 0 then f else f + 1
  (n : ℚ) / 100

/-- Model of `_evaluate_heuristic` (evaluator_agent.py lines 70–160),
scores part: the four sub-scores and the rounded weighted overall. -/
def evaluate_heuristic (query response context : String) : HeuristicScores :=
  let query_terms := keywordSet query
  let response_terms := keywordSet response
  let common_terms := query_terms ∩ response_terms
  let relevance_score : ℚ :=
    (common_terms.card : ℚ) / ((max query_terms.card 1 : Nat) : ℚ)
  let relevance := min (relevance_score * 5) 5
  let wc := wordCount response
  let completeness : ℚ := if wc < 10 then 1 else if wc < 30 then 3 else 5
  let avg_words_per_sentence : ℚ :=
    (wc : ℚ) / ((max (sentenceCount response) 1 : Nat) : ℚ)
  let clarity : ℚ :=
    if 25 < avg_words_per_sentence then 2
    else if 15 < avg_words_per_sentence then 7/2 else 5
  let context_terms := keywordSet context
  let response_unique_terms := response_terms \ query_terms
  let context_overlap := response_unique_terms ∩ context_terms
  let accuracy_score : ℚ :=
    (context_overlap.card : ℚ) / ((max response_unique_terms.card 1 : Nat) : ℚ)
  let accuracy := min (accuracy_score * 5) 5
  let overall := pyRound2
    (relevance * (3/10) + completeness * (2/10) + clarity * (2/10) +
      accuracy * (3/10))
  { relevance := relevance, completeness := completeness, clarity := clarity
    accuracy := accuracy, overall := overall }

/-! ## Evaluation-text parsing: `ResponseEvaluator._parse_evaluation`
(evaluator_agent.py lines 225–260)

The two regular expressions are anchored prefix matches (`re.match`),
modelled directly; the fallible Python negative indexing
`parts[-2]` (an `IndexError` when `len(parts) < 2`) makes the function
return an `Except`. -/

/-- Association-list update with Python dict semantics: replace in
place, else append. -/
def dictInsert {α : Type} (k : String) (v : α) :
    List (String × α) → List (String × α)
  | [] => [(k, v)]
  | (k', v') :: rest =>
    if k' = k then (k, v) :: rest else (k', v') :: dictInsert k v rest

/-- Python `lst.strip()`: drop whitespace from both ends. -/
def stripChars (l : List Char) : List Char :=
  ((l.dropWhile Char.isWhitespace).reverse.dropWhile Char.isWhitespace).reverse

/-- Decimal digits to a natural number. -/
def digitsToNat (ds : List Char) : Nat :=
  ds.foldl (fun acc c => acc * 10 + (c.toNat - '0'.toNat)) 0

/-- Python float conversion of a string matched by the number pattern
(digits, optional period, digits). -/
def floatOfDigits (intPart fracPart : List Char) : ℚ :=
  (digitsToNat intPart : ℚ) +
    (digitsToNat fracPart : ℚ) / ((10 : ℚ) ^ fracPart.length)

/-- Prefix match of optional whitespace followed by a decimal number,
returning the parsed float. -/
def matchNumber (l : List Char) : Option ℚ :=
  let l1 := l.dropWhile Char.isWhitespace
  let intPart := l1.takeWhile Char.isDigit
  if intPart = [] then none
  else
    let rest := l1.dropWhile Char.isDigit
    match rest with
    | '.' :: rest' => some (floatOfDigits intPart (rest'.takeWhile Char.isDigit))
    | _ => some (floatOfDigits intPart [])

/-- The metric alternation of the score regex, with the lower-cased dict
keys. -/
def scoreMetrics : List (String × String) :=
  [("Relevance", "relevance"), ("Completeness", "completeness"),
   ("Clarity", "clarity"), ("Accuracy", "accuracy"),
   ("Overall", "overall")]

/-- The score-line match of evaluator_agent.py line 245: one of the five
metric names, a colon, optional whitespace and a decimal number, all
anchored at the start of the line; yields the lower-cased metric and the
score. -/
def matchScoreLine (l : List Char) : Option (String × ℚ) :=
  scoreMetrics.firstM fun m =>
    let pat := (m.1 ++ ":").toList
    if List.isPrefixOf pat l then
      (matchNumber (l.drop pat.length)).map fun q => (m.2, q)
    else none

/-- The reason-line match of evaluator_agent.py line 252: the marker
Reason and a colon anchored at the start of the line, then optional
whitespace; yields the captured rest of the line. -/
def matchReasonLine (l : List Char) : Option (List Char) :=
  let pat := "Reason:".toList
  if List.isPrefixOf pat l then
    some ((l.drop pat.length).dropWhile Char.isWhitespace)
  else none

/-- Python hay.split(pat)[0]: the text before the first occurrence of `pat`
(the whole of `hay` when `pat` does not occur). -/
def takeBeforeSub (pat : List Char) : List Char → List Char
  | [] => []
  | c :: cs =>
    if List.isPrefixOf pat (c :: cs) then []
    else c :: takeBeforeSub pat cs

/-- Python `hay.split(pat)` for a non-empty `pat`, fuelled by the length
of `hay` (each step consumes at least one character). -/
def splitOnSub (pat : List Char) : Nat → List Char → List (List Char)
  | _, [] => [[]]
  | 0, hay => [hay]
  | fuel + 1, c :: cs =>
    if List.isPrefixOf pat (c :: cs) then
      [] :: splitOnSub pat fuel ((c :: cs).drop pat.length)
    else
      match splitOnSub pat fuel cs with
      | [] => [[c]]
      | p :: ps => (c :: p) :: ps

/-- Python substring containment `pat in hay`. -/
def containsSub (pat : List Char) : List Char → Bool
  | [] => decide (pat = [])
  | c :: cs => List.isPrefixOf pat (c :: cs) || containsSub pat cs

/-- The reason-attribution loop (evaluator_agent.py lines 255–258): the
first of the four metrics whose capitalized name occurs in the text
segment. -/
def firstMetricIn (seg : List Char) : Option String :=
  if containsSub "Relevance".toList seg then some "relevance"
  else if containsSub "Completeness".toList seg then some "completeness"
  else if containsSub "Clarity".toList seg then some "clarity"
  else if containsSub "Accuracy".toList seg then some "accuracy"
  else none

/-- The line loop of `_parse_evaluation`, carrying the scores and
reasons dicts.  For a reason line, the text before the first occurrence
of the line in the full input is split on `"Reason:"` and indexed at
`[-2]`, which raises `IndexError` when that split has fewer than two
parts. -/
def parseEvalLines (full : List Char) :
    List (List Char) → List (String × ℚ) × List (String × List String) →
    Except String (List (String × ℚ) × List (String × List String))
  | [], st => .ok st
  | line :: rest, (scores, reasons) =>
    let l := stripChars line
    if l = [] then parseEvalLines full rest (scores, reasons)
    else
      match matchScoreLine l with
      | some (m, v) => parseEvalLines full rest (dictInsert m v scores, reasons)
      | none =>
        match matchReasonLine l with
        | some r =>
          let pre := takeBeforeSub l full
          let parts := splitOnSub "Reason:".toList pre.length pre
          if parts.length < 2 then .error "IndexError: list index out of range"
          else
            let seg := parts.getD (parts.length - 2) []
            let reasons' :=
              match firstMetricIn seg with
              | some m => dictInsert m [String.mk r] reasons
              | none => reasons
            parseEvalLines full rest (scores, reasons')
        | none => parseEvalLines full rest (scores, reasons)

/-- Model of `_parse_evaluation` (evaluator_agent.py lines 225–260):
iterate over the newline-split lines of the raw evaluation text. -/
def parse_evaluation (evalText : String) :
    Except String (List (String × ℚ) × List (String × List String)) :=
  parseEvalLines evalText.toList (splitOnChar '\n' evalText.toList) ([], [])

/-! ## FAQ ingestion: `load_faq_data` (data_loader.py lines 18–50)

A CSV cell is `Option String`: `none` models a pandas `NaN` (a missing
or empty field).  The `pd.read_csv` outcome is abstracted as
`Option (Bool × List FaqRow)`: `none` when reading raises, otherwise the
flag telling whether both required columns are present, and the parsed
rows. -/

/-- One row of the FAQ table. -/
structure FaqRow where
  question : Option String
  answer : Option String
deriving DecidableEq

/-- Row survives the dropna filter on the two required columns. -/
def FaqRow.complete (r : FaqRow) : Bool :=
  r.question.isSome && r.answer.isSome

/-- Model of `load_faq_data`: `None` when reading fails or a required column is
missing; otherwise the rows with both fields present, in order. -/
def load_faq_data (csv : Option (Bool × List FaqRow)) :
    Option (List FaqRow) :=
  match csv with
  | none => none
  | some (columnsOk, rows) =>
    if columnsOk then some (rows.filter FaqRow.complete) else none

/-! ## Chat history: `ChatInterface.add_message`
(chat_interface.py lines 160–174, config.py line 30) -/

/-- The constant `MAX_HISTORY_LENGTH` (config.py line 30). -/
def MAX_HISTORY_LENGTH : Nat := 20

/-- One chat message dict `{"role": role, "content": content, **kwargs}`. -/
structure ChatMessage where
  role : String
  content : String
  extra : List (String × String)
deriving DecidableEq

/-- The last `k` elements of a list (`lst[-k:]` for `k ≥ 1`). -/
def lastN {α : Type} (k : Nat) (l : List α) : List α :=
  l.drop (l.length - k)

/-- Model of `add_message` (chat_interface.py lines 160–174): append, then trim
to the last `MAX_HISTORY_LENGTH` messages when the history exceeds that
bound. -/
def add_message (messages : List ChatMessage) (m : ChatMessage) :
    List ChatMessage :=
  let h := messages ++ [m]
  if h.length > MAX_HISTORY_LENGTH then lastN MAX_HISTORY_LENGTH h else h

/-- The history produced by a sequence of `add_message` calls starting
from the empty session state. -/
def historyAfter (calls : List ChatMessage) : List ChatMessage :=
  calls.foldl add_message []

/-! ## Helper lemmas -/

/-- Dropping a full chunk of three from a cons-cons-cons list. -/
theorem drop3_cons3 {α : Type} (a b c : α) (l : List α) (k : Nat) :
    List.drop (3 * (k + 1)) (a :: b :: c :: l) = List.drop (3 * k) l := by
  rw [show 3 * (k + 1) = 3 * k + 3 by omega]
  rfl

/-- Dropping at least three elements from a one-element list. -/
theorem drop3_one {α : Type} (a : α) (k : Nat) :
    List.drop (3 * (k + 1)) [a] = ([] : List α) := by
  rw [show 3 * (k + 1) = 3 * k + 3 by omega]
  rfl

/-- Dropping at least three elements from a two-element list. -/
theorem drop3_two {α : Type} (a b : α) (k : Nat) :
    List.drop (3 * (k + 1)) [a, b] = ([] : List α) := by
  rw [show 3 * (k + 1) = 3 * k + 3 by omega]
  rfl

/-- Both components of `embedBatches` at once: the output length equals
the input length whenever successful requests return one vector per
input, and the request count is one per chunk of three. -/
theorem embedBatches_length_count (cfg : EmbConfig)
    (oracle : List String → Except String (List (List ℚ)))
    (hlen : ∀ b r, oracle b = .ok r → r.length = b.length) :
    ∀ texts : List String,
      (embedBatches cfg oracle texts).1.length = texts.length ∧
      (embedBatches cfg oracle texts).2 = (texts.length + 2) / 3 := by
  intro texts
  induction texts using embedBatches.induct cfg oracle with
  | case1 => simp [embedBatches]
  | case2 a data h => simpa [embedBatches, h] using hlen [a] data h
  | case3 a e h => simp [embedBatches, h]
  | case4 a b data h => simpa [embedBatches, h] using hlen [a, b] data h
  | case5 a b e h => simp [embedBatches, h]
  | case6 a b c rest data h ih =>
    obtain ⟨ih1, ih2⟩ := ih
    have hd3 : data.length = 3 := by simpa using hlen [a, b, c] data h
    simp only [embedBatches, h, List.length_append, List.length_cons]
    exact ⟨by omega, by omega⟩
  | case7 a b c rest e h ih =>
    obtain ⟨ih1, ih2⟩ := ih
    simp only [embedBatches, h, List.length_append, List.length_replicate,
      List.length_cons]
    exact ⟨by omega, by omega⟩

/-- Positional zero-vector fallback for `embedBatches`: when the chunk
starting at position `3 * k` fails, every slot of the output inside that
chunk is the zero vector of the configured fallback dimensionality. -/
theorem embedBatches_failed_chunk (cfg : EmbConfig)
    (oracle : List String → Except String (List (List ℚ)))
    (hlen : ∀ b r, oracle b = .ok r → r.length = b.length) :
    ∀ (texts : List String) (k j : Nat) (e : String),
      oracle ((texts.drop (3 * k)).take 3) = .error e →
      j < ((texts.drop (3 * k)).take 3).length →
      (embedBatches cfg oracle texts).1[3 * k + j]? = some (zeroVec cfg) := by
  intro texts
  induction texts using embedBatches.induct cfg oracle with
  | case1 =>
    intro k j e _ hj
    simp at hj
  | case2 a data h =>
    intro k j e herr hj
    match k with
    | 0 =>
      simp only [Nat.mul_zero, List.drop_zero, List.take_succ_cons,
        List.take_nil] at herr
      rw [h] at herr
      exact absurd herr (by simp)
    | k + 1 =>
      rw [drop3_one] at hj
      simp at hj
  | case3 a e0 h =>
    intro k j e herr hj
    match k with
    | 0 =>
      simp only [Nat.mul_zero, List.drop_zero, List.take_succ_cons,
        List.take_nil, List.length_cons, List.length_nil] at herr hj
      have hj0 : j = 0 := by omega
      subst hj0
      simp [embedBatches, h]
    | k + 1 =>
      rw [drop3_one] at hj
      simp at hj
  | case4 a b data h =>
    intro k j e herr hj
    match k with
    | 0 =>
      simp only [Nat.mul_zero, List.drop_zero, List.take_succ_cons,
        List.take_nil] at herr
      rw [h] at herr
      exact absurd herr (by simp)
    | k + 1 =>
      rw [drop3_two] at hj
      simp at hj
  | case5 a b e0 h =>
    intro k j e herr hj
    match k with
    | 0 =>
      simp only [Nat.mul_zero, List.drop_zero, List.take_succ_cons,
        List.take_nil, List.length_cons, List.length_nil] at herr hj
      have hj01 : j < 2 := by omega
      simp only [embedBatches, h]
      rw [List.getElem?_replicate]
      simp [hj01]
    | k + 1 =>
      rw [drop3_two] at hj
      simp at hj
  | case6 a b c rest data h ih =>
    intro k j e herr hj
    match k with
    | 0 =>
      simp only [Nat.mul_zero, List.drop_zero, List.take_succ_cons,
        List.take_zero] at herr
      rw [h] at herr
      exact absurd herr (by simp)
    | k + 1 =>
      rw [drop3_cons3] at herr hj
      have step := ih k j e herr hj
      have hd3 : data.length = 3 := by simpa using hlen [a, b, c] data h
      have hidx : 3 * (k + 1) + j = (3 * k + j) + data.length := by omega
      simp only [embedBatches, h]
      rw [List.getElem?_append_right (by omega), hidx, Nat.add_sub_cancel]
      exact step
  | case7 a b c rest e0 h ih =>
    intro k j e herr hj
    match k with
    | 0 =>
      simp only [Nat.mul_zero, List.drop_zero, List.take_succ_cons,
        List.take_zero, List.length_cons, List.length_nil] at herr hj
      have hj3 : j < 3 := by omega
      simp only [embedBatches, h, Nat.mul_zero, Nat.zero_add]
      have hlt : j < (List.replicate 3 (zeroVec cfg)).length := by
        simpa using hj3
      rw [List.getElem?_append_left hlt, List.getElem?_replicate]
      simp [hj3]
    | k + 1 =>
      rw [drop3_cons3] at herr hj
      have step := ih k j e herr hj
      have hidx : 3 * (k + 1) + j =
          (3 * k + j) + (List.replicate 3 (zeroVec cfg)).length := by
        simp; omega
      simp only [embedBatches, h]
      rw [List.getElem?_append_right (by simp; omega), hidx, Nat.add_sub_cancel]
      exact step


/-! ## Claim theorems: embedding provider and vector store -/

/-- C10: calling `embed_documents` with the empty list returns the empty
list immediately and issues no request at all (request count 0), for
every configuration and every provider behaviour. -/
theorem c10_embed_documents_empty (cfg : EmbConfig)
    (oracle : List String → Except String (List (List ℚ))) :
    embed_documents cfg oracle [] = ([], 0) := rfl

/-- C2: for every input list of length n, `embed_documents` returns
exactly n embedding vectors and issues one request per fixed-size chunk
of 3 texts (so ⌈n/3⌉ requests), regardless of which chunk requests fail,
provided every successful request answers one vector per input text. -/
theorem c2_embed_documents_length_and_chunks (cfg : EmbConfig)
    (oracle : List String → Except String (List (List ℚ)))
    (texts : List String)
    (hlen : ∀ b r, oracle b = .ok r → r.length = b.length) :
    (embed_documents cfg oracle texts).1.length = texts.length ∧
    (embed_documents cfg oracle texts).2 = (texts.length + 2) / 3 := by
  unfold embed_documents
  split
  next h => subst h; simp
  next => exact embedBatches_length_count cfg oracle hlen texts

/-- An oracle answering every request with one empty vector per input
text. -/
def echoOracle : List String → Except String (List (List ℚ)) :=
  fun b => .ok (b.map fun _ => [])

/-- Witness for C2 at a concrete four-text input: four output slots and
two requests. -/
theorem c2_witness :
    (embed_documents ⟨none⟩ echoOracle ["a", "b", "c", "d"]).1.length = 4 ∧
    (embed_documents ⟨none⟩ echoOracle ["a", "b", "c", "d"]).2 = 2 := by
  have h := c2_embed_documents_length_and_chunks ⟨none⟩ echoOracle
    ["a", "b", "c", "d"]
    (by intro b r hb
        simp only [echoOracle, Except.ok.injEq] at hb
        subst hb
        simp)
  simpa using h

/-- An oracle whose probe request answers a five-dimensional vector and
whose every other request fails. -/
def probeDim5Oracle : List String → Except String (List (List ℚ)) :=
  fun ts =>
    if ts = ["Test embedding"] then .ok [[1, 1, 1, 1, 1]]
    else .error "batch failed"

/-- C1 counterexample: with the `VectorStore` configuration (no
`dimensions` argument, hence `dimensions = None`), the probe discovers
dimensionality 5, yet the output slot of a failed chunk is the zero
vector of length 384 — the hard-coded default, not the probe-discovered
dimensionality. -/
theorem c1_counterexample :
    (embed_query probeDim5Oracle "Test embedding").map List.length = .ok 5 ∧
    (embed_documents ⟨none⟩ probeDim5Oracle ["doc one"]).1 =
      [List.replicate 384 (0 : ℚ)] ∧
    (List.replicate 384 (0 : ℚ)).length ≠ 5 := by
  refine ⟨rfl, rfl, ?_⟩
  rw [List.length_replicate]
  decide

/-- C1 (amended): if a chunk request inside `embed_documents` fails,
every output slot of that chunk equals a zero vector whose length is the
configured `dimensions` when set and 384 otherwise; the probe result is
only logged and never used for the fallback length. -/
theorem c1_amended_failed_chunk_fallback (cfg : EmbConfig)
    (oracle : List String → Except String (List (List ℚ)))
    (texts : List String) (k j : Nat) (e : String)
    (hlen : ∀ b r, oracle b = .ok r → r.length = b.length)
    (herr : oracle ((texts.drop (3 * k)).take 3) = .error e)
    (hj : j < ((texts.drop (3 * k)).take 3).length) :
    (embed_documents cfg oracle texts).1[3 * k + j]? =
      some (List.replicate cfg.fallbackDim 0) := by
  have h := embedBatches_failed_chunk cfg oracle hlen texts k j e herr hj
  unfold embed_documents
  split
  next hnil => subst hnil; simp at hj
  next => exact h

/-- An oracle failing exactly on the second chunk of the C1 witness
input. -/
def failSecondChunkOracle : List String → Except String (List (List ℚ)) :=
  fun b => if b = ["x"] then .error "boom" else .ok (b.map fun _ => [])

/-- Witness for the amended C1 at a concrete input: the slot of the
failed one-text chunk is the 384-dimensional zero vector. -/
theorem c1_amended_witness :
    (embed_documents ⟨none⟩ failSecondChunkOracle ["a", "b", "c", "x"]).1[3]? =
      some (List.replicate 384 (0 : ℚ)) := by
  have h := c1_amended_failed_chunk_fallback ⟨none⟩ failSecondChunkOracle
    ["a", "b", "c", "x"] 1 0 "boom"
    (by intro b r hb
        by_cases hx : b = ["x"]
        · rw [hx] at hb
          simp [failSecondChunkOracle] at hb
        · simp only [failSecondChunkOracle, if_neg hx, Except.ok.injEq] at hb
          subst hb
          simp)
    (by rfl)
    (by simp)
  exact h

/-- C5: if the `embed_query` probe fails, `VectorStore.initialize`
returns `False` and leaves the store state unchanged — in particular an
uninitialized store stays uninitialized and no document is indexed. -/
theorem c5_initialize_probe_failure
    (oracle : List String → Except String (List (List ℚ)))
    (addTexts : List String → Except String Unit)
    (st : VSState) (documents : List String) (e : String)
    (hprobe : embed_query oracle "Test embedding" = .error e) :
    VectorStore.initialize oracle addTexts st documents = (false, st) := by
  unfold VectorStore.initialize
  rw [hprobe]

/-- An oracle refusing every request, so the probe fails. -/
def failProbeOracle : List String → Except String (List (List ℚ)) :=
  fun _ => .error "connection refused"

/-- Witness for C5 at a concrete input: initialization fails and the
uninitialized state is preserved. -/
theorem c5_witness :
    VectorStore.initialize failProbeOracle (fun _ => .ok ()) ⟨none⟩ ["d1"] =
      (false, ⟨none⟩) :=
  c5_initialize_probe_failure failProbeOracle (fun _ => .ok ()) ⟨none⟩ ["d1"]
    "connection refused" rfl


/-! ## Claim theorems: answer generation -/

/-- C6: `generate_response` at `None` and at the empty string returns
exactly the dict with the single key `answer = "Invalid query input."`,
for every environment — the result does not depend on the retrieval,
generation or evaluation oracles, so no network call is consulted. -/
theorem c6_invalid_query_short_circuit (env : QAEnv) :
    generate_response env none =
      { answer := "Invalid query input.", error := none, traceback := none,
        evaluation := none, extra := [] } ∧
    generate_response env (some "") =
      { answer := "Invalid query input.", error := none, traceback := none,
        evaluation := none, extra := [] } :=
  ⟨rfl, rfl⟩

/-- C3: for every non-empty query, whenever the post-validation body of
`generate_response` raises (any stage: the chain with its internal
retrieval, or the evaluator), the returned dict — `generate_response`
is total, it returns and never raises — carries the apology answer, the
error message, and the fixed error evaluation
`{scores: {overall: 0}, reasons: {error: [msg]}, method: "error"}`. -/
theorem c3_error_result (env : QAEnv) (q : String) (e : PyExn)
    (hq : q ≠ "") (hbody : qaBody env q = .error e) :
    (generate_response env (some q)).answer =
      "I apologize, but I encountered an error: " ++ e.msg ∧
    (generate_response env (some q)).error = some e.msg ∧
    (generate_response env (some q)).evaluation =
      some { scores := [("overall", 0)], reasons := [("error", [e.msg])],
             method := "error" } := by
  unfold generate_response
  dsimp only
  rw [if_neg hq, hbody]
  exact ⟨rfl, rfl, rfl⟩

/-- An environment whose generation stage raises `boom`. -/
def boomEnv : QAEnv where
  retrieve := fun _ => .ok ["doc"]
  llmAnswer := fun _ _ => .error ⟨"boom", "Traceback"⟩
  evaluate := fun _ _ _ => .ok ⟨[], [], "heuristic"⟩

/-- Witness for C3 at a concrete query and failing generation stage. -/
theorem c3_witness :
    (generate_response boomEnv (some "hi")).answer =
      "I apologize, but I encountered an error: boom" ∧
    (generate_response boomEnv (some "hi")).error = some "boom" ∧
    (generate_response boomEnv (some "hi")).evaluation =
      some { scores := [("overall", 0)], reasons := [("error", ["boom"])],
             method := "error" } :=
  c3_error_result boomEnv "hi" ⟨"boom", "Traceback"⟩ (by decide) rfl

/-! ## Claim theorems: FAQ ingestion -/

/-- C8: when `load_faq_data` succeeds, every returned row has both its
`question` and `answer` cells present, and every row of the input whose
cells are not both present has been dropped from the output. -/
theorem c8_validated_rows_complete (colsOk : Bool) (rows out : List FaqRow)
    (h : load_faq_data (some (colsOk, rows)) = some out) :
    (∀ r ∈ out, r.question.isSome ∧ r.answer.isSome) ∧
    (∀ r ∈ rows, FaqRow.complete r = false → r ∉ out) := by
  unfold load_faq_data at h
  cases colsOk with
  | false => simp at h
  | true =>
    simp only [if_pos] at h
    injection h with h
    subst h
    constructor
    · intro r hr
      have hc := (List.mem_filter.mp hr).2
      unfold FaqRow.complete at hc
      rw [Bool.and_eq_true] at hc
      exact ⟨hc.1, hc.2⟩
    · intro r _ hbad hout
      have hc := (List.mem_filter.mp hout).2
      rw [hbad] at hc
      exact Bool.false_ne_true hc

/-- Witness for C8 at a concrete table: the complete row survives with
both fields present, the row with a missing question is dropped. -/
theorem c8_witness :
    ((⟨some "q1", some "a1"⟩ : FaqRow).question.isSome ∧
      (⟨some "q1", some "a1"⟩ : FaqRow).answer.isSome) ∧
    (⟨none, some "a2"⟩ : FaqRow) ∉ [(⟨some "q1", some "a1"⟩ : FaqRow)] := by
  have h := c8_validated_rows_complete true
    [⟨some "q1", some "a1"⟩, ⟨none, some "a2"⟩]
    [⟨some "q1", some "a1"⟩] rfl
  exact ⟨h.1 ⟨some "q1", some "a1"⟩ (by simp),
    h.2 ⟨none, some "a2"⟩ (by simp) rfl⟩

/-! ## Claim theorems: evaluation-text parsing -/

/-- C7: the parser is not total — on the exact line format the grading
prompt requests, the text before the first reason line contains no
occurrence of the Reason marker, so the negative indexing at
evaluator_agent.py line 256 raises `IndexError` instead of returning a
best-effort result. -/
theorem c7_parse_evaluation_raises :
    parse_evaluation "Relevance: 4\nReason: good" =
      .error "IndexError: list index out of range" := by rfl

/-! ## Claim theorems: chat history -/

/-- One `add_message` step preserves the last-20 characterization of the
history. -/
theorem add_message_lastN (l : List ChatMessage) (m : ChatMessage) :
    add_message (lastN MAX_HISTORY_LENGTH l) m =
      lastN MAX_HISTORY_LENGTH (l ++ [m]) := by
  unfold add_message lastN MAX_HISTORY_LENGTH
  have hsplit : (l ++ [m]).drop (l.length - 20) =
      l.drop (l.length - 20) ++ [m] :=
    List.drop_append_of_le_length (by omega)
  rw [← hsplit]
  simp only [List.length_drop, List.length_append, List.length_cons,
    List.length_nil]
  split_ifs with h
  · rw [List.drop_drop]
    congr 1
    omega
  · congr 1
    omega

/-- The history after any call sequence is the last 20 calls. -/
theorem historyAfter_lastN (calls : List ChatMessage) :
    historyAfter calls = lastN MAX_HISTORY_LENGTH calls := by
  induction calls using List.reverseRecOn with
  | nil => rfl
  | append_singleton l m ih =>
    unfold historyAfter at ih ⊢
    rw [List.foldl_append, List.foldl_cons, List.foldl_nil, ih,
      add_message_lastN]

/-- C9: after more than `MAX_HISTORY_LENGTH` (= 20) `add_message` calls
on an initially empty session, the stored history has length exactly 20
and is exactly the suffix of the 20 most recent messages in their
original order. -/
theorem c9_history_eviction (calls : List ChatMessage)
    (h : calls.length > MAX_HISTORY_LENGTH) :
    (historyAfter calls).length = MAX_HISTORY_LENGTH ∧
    historyAfter calls = calls.drop (calls.length - MAX_HISTORY_LENGTH) := by
  have heq := historyAfter_lastN calls
  constructor
  · rw [heq]
    unfold lastN
    rw [List.length_drop]
    unfold MAX_HISTORY_LENGTH at h ⊢
    omega
  · rw [heq]
    rfl

/-- Twenty-one distinct messages. -/
def manyCalls : List ChatMessage :=
  (List.range 21).map fun i => ⟨"user", toString i, []⟩

/-- Witness for C9 at a concrete sequence of 21 calls. -/
theorem c9_witness :
    (historyAfter manyCalls).length = MAX_HISTORY_LENGTH ∧
    historyAfter manyCalls =
      manyCalls.drop (manyCalls.length - MAX_HISTORY_LENGTH) :=
  c9_history_eviction manyCalls (by simp [manyCalls, MAX_HISTORY_LENGTH])

/-! ## Claim theorems: heuristic evaluation -/

/-- The relevance score as the code computes it. -/
theorem evaluate_heuristic_relevance (q a c : String) :
    (evaluate_heuristic q a c).relevance =
      min (((keywordSet q ∩ keywordSet a).card : ℚ) /
        ((max (keywordSet q).card 1 : Nat) : ℚ) * 5) 5 := rfl

/-- The completeness score as the code computes it. -/
theorem evaluate_heuristic_completeness (q a c : String) :
    (evaluate_heuristic q a c).completeness =
      (if wordCount a < 10 then 1 else if wordCount a < 30 then 3 else 5) := rfl

/-- The clarity score as the code computes it. -/
theorem evaluate_heuristic_clarity (q a c : String) :
    (evaluate_heuristic q a c).clarity =
      (if 25 < (wordCount a : ℚ) / ((max (sentenceCount a) 1 : Nat) : ℚ)
        then 2
        else if 15 < (wordCount a : ℚ) / ((max (sentenceCount a) 1 : Nat) : ℚ)
          then 7/2 else 5) := rfl

/-- The accuracy score as the code computes it. -/
theorem evaluate_heuristic_accuracy (q a c : String) :
    (evaluate_heuristic q a c).accuracy =
      min ((((keywordSet a \ keywordSet q) ∩ keywordSet c).card : ℚ) /
        ((max (keywordSet a \ keywordSet q).card 1 : Nat) : ℚ) * 5) 5 := rfl

/-- The overall score as the code computes it: the weighted sum of the
four sub-scores, rounded to two decimals. -/
theorem evaluate_heuristic_overall (q a c : String) :
    (evaluate_heuristic q a c).overall =
      pyRound2 ((evaluate_heuristic q a c).relevance * (3/10) +
        (evaluate_heuristic q a c).completeness * (2/10) +
        (evaluate_heuristic q a c).clarity * (2/10) +
        (evaluate_heuristic q a c).accuracy * (3/10)) := rfl

/-- C4: for every (query, answer, context) triple, the heuristic scores
are each within [0, 5] and equal the spec formulas: relevance is the
clamped scaled keyword overlap with the query, completeness and clarity
follow the word-count and sentence-length thresholds, accuracy is the
clamped scaled overlap of the non-query answer keywords with the
context, and overall is the weighted sum (weights 0.3, 0.2, 0.2, 0.3)
rounded to two decimals. -/
theorem c4_heuristic_scores (q a c : String) :
    (0 ≤ (evaluate_heuristic q a c).relevance ∧
      (evaluate_heuristic q a c).relevance ≤ 5) ∧
    (0 ≤ (evaluate_heuristic q a c).completeness ∧
      (evaluate_heuristic q a c).completeness ≤ 5) ∧
    (0 ≤ (evaluate_heuristic q a c).clarity ∧
      (evaluate_heuristic q a c).clarity ≤ 5) ∧
    (0 ≤ (evaluate_heuristic q a c).accuracy ∧
      (evaluate_heuristic q a c).accuracy ≤ 5) ∧
    (evaluate_heuristic q a c).relevance =
      min (5 * ((keywordSet q ∩ keywordSet a).card : ℚ) /
        ((max (keywordSet q).card 1 : Nat) : ℚ)) 5 ∧
    (evaluate_heuristic q a c).completeness =
      (if wordCount a < 10 then 1 else if wordCount a < 30 then 3 else 5) ∧
    (evaluate_heuristic q a c).clarity =
      (if 25 < (wordCount a : ℚ) / ((max (sentenceCount a) 1 : Nat) : ℚ)
        then 2
        else if 15 < (wordCount a : ℚ) / ((max (sentenceCount a) 1 : Nat) : ℚ)
          then 7/2 else 5) ∧
    (evaluate_heuristic q a c).accuracy =
      min (5 * (((keywordSet a \ keywordSet q) ∩ keywordSet c).card : ℚ) /
        ((max (keywordSet a \ keywordSet q).card 1 : Nat) : ℚ)) 5 ∧
    (evaluate_heuristic q a c).overall =
      pyRound2 ((3/10) * (evaluate_heuristic q a c).relevance +
        (2/10) * (evaluate_heuristic q a c).completeness +
        (2/10) * (evaluate_heuristic q a c).clarity +
        (3/10) * (evaluate_heuristic q a c).accuracy) := by
  refine ⟨?_, ?_, ?_, ?_, ?_, evaluate_heuristic_completeness q a c,
    evaluate_heuristic_clarity q a c, ?_, ?_⟩
  · rw [evaluate_heuristic_relevance]
    exact ⟨le_min (by positivity) (by norm_num), min_le_right _ _⟩
  · rw [evaluate_heuristic_completeness]
    split_ifs <;> norm_num
  · rw [evaluate_heuristic_clarity]
    split_ifs <;> norm_num
  · rw [evaluate_heuristic_accuracy]
    exact ⟨le_min (by positivity) (by norm_num), min_le_right _ _⟩
  · rw [evaluate_heuristic_relevance]
    congr 1
    ring
  · rw [evaluate_heuristic_accuracy]
    congr 1
    ring
  · rw [evaluate_heuristic_overall]
    congr 1
    ring

end Chatbot
